import Mathlib

/-!
Shallow embedding of the Hospital Batch Processor core
(app/services/batch_service.py, app/services/hospital_service.py,
app/repositories/batch_repository.py, app/utils/csv_validator.py,
app/models/enums.py, app/models/schemas.py).

Modelling conventions:
* Remote HTTP calls are replaced by explicit outcome parameters: the result
  the remote directory would have produced (`CreateOutcome` for per-item
  creation, `Option ActivateResponse` for bulk activation, and
  `Option (List Hospital)` for the list-by-batch fetch, `none` standing for
  the transport failure that the client converts to an empty list).
* Wall-clock fields of BatchData (created_at, started_at, completed_at,
  processing_time_seconds) are outside the embedding; no claim mentions them.
* The in-memory repository stores the very object it hands out, so the
  creation phase's incremental mutations are modelled by threading the
  batch record through the per-item effects (`itemEffect` / `midBatch`),
  and the final join overwrites those fields exactly as the source does.
-/

namespace HospitalBatch

/-- app/models/enums.py: HospitalStatus. -/
inductive HospitalStatus
  | CREATED_AND_ACTIVATED
  | CREATED
  | FAILED
  | DELETED
deriving DecidableEq, Repr

/-- app/models/enums.py: BatchProcessingStatus. -/
inductive BatchProcessingStatus
  | PENDING
  | PROCESSING
  | COMPLETED
  | FAILED
  | PARTIALLY_COMPLETED
deriving DecidableEq, Repr

/-- app/models/schemas.py: Hospital (the remote directory entity; created_at
string omitted, no claim mentions it). -/
structure Hospital where
  id : Nat
  name : String
  address : String
  phone : Option String := none
  active : Bool := true
deriving DecidableEq, Repr

/-- app/models/schemas.py: ActivateResponse (message string omitted). -/
structure ActivateResponse where
  activated_count : Nat
deriving DecidableEq, Repr

/-- app/models/schemas.py: HospitalRecord. -/
structure HospitalRecord where
  row : Nat
  hospital_id : Option Nat := none
  name : String
  address : String
  phone : Option String := none
  status : HospitalStatus
  error_message : Option String := none
deriving DecidableEq, Repr

/-- app/models/schemas.py: BatchData (timestamp and duration fields omitted). -/
structure BatchData where
  batch_id : String
  total_hospitals : Nat
  processed_hospitals : Nat := 0
  failed_hospitals : Nat := 0
  batch_activated : Bool := false
  processing_status : BatchProcessingStatus := .PENDING
  hospitals : List HospitalRecord := []
deriving DecidableEq, Repr

/-- A validated CSV row as handed to the orchestrator (the dict produced by
CSVValidator.validate_and_parse: keys name, address, phone). -/
structure ParsedRow where
  name : String
  address : String
  phone : Option String := none
deriving DecidableEq, Repr

/-- Outcome of one per-item attempt inside the try block of
_create_hospital_from_row: the remote client returned a Hospital, the remote
client returned None (its own except branch), or something in the try block
raised an exception with message msg. -/
inductive CreateOutcome
  | success (h : Hospital)
  | apiFailure
  | exn (msg : String)
deriving DecidableEq, Repr

/-- The membership test `h.status in [HospitalStatus.CREATED,
HospitalStatus.CREATED_AND_ACTIVATED]` from batch_service.py. -/
def successStatus (s : HospitalStatus) : Bool :=
  s == .CREATED || s == .CREATED_AND_ACTIVATED

/-- Python str.strip(): drops leading and trailing whitespace (written over
the character sequence so concrete inputs evaluate). -/
def pyStrip (s : String) : String :=
  ⟨((s.data.dropWhile Char.isWhitespace).reverse.dropWhile Char.isWhitespace).reverse⟩

/-- app/services/batch_service.py: _create_hospital_from_row.
`store` is the result of `self.repository.get(batch_id)` at the moment the
item resolves (the source checks it for None defensively); the returned pair
is the HospitalRecord handed back to the gather and the saved batch record. -/
def _create_hospital_from_row (row : ParsedRow) (row_number : Nat)
    (outcome : CreateOutcome) (store : Option BatchData) :
    HospitalRecord × Option BatchData :=
  match outcome with
  | .success h =>
      let record : HospitalRecord :=
        { row := row_number, hospital_id := some h.id, name := h.name,
          address := h.address, phone := h.phone, status := .CREATED }
      match store with
      | some batch_data =>
          (record, some { batch_data with processed_hospitals :=
              (batch_data.hospitals.filter fun r => successStatus r.status).length + 1 })
      | none => (record, none)
  | .apiFailure =>
      let store2 := match store with
        | some batch_data =>
            some { batch_data with failed_hospitals := batch_data.failed_hospitals + 1 }
        | none => none
      ({ row := row_number, hospital_id := none, name := pyStrip row.name,
         address := pyStrip row.address, phone := row.phone, status := .FAILED,
         error_message := some "Failed to create hospital via external API" }, store2)
  | .exn msg =>
      let store2 := match store with
        | some batch_data =>
            some { batch_data with failed_hospitals := batch_data.failed_hospitals + 1 }
        | none => none
      ({ row := row_number, hospital_id := none, name := pyStrip row.name,
         address := pyStrip row.address, phone := row.phone, status := .FAILED,
         error_message := some msg }, store2)

/-- The HospitalRecord produced for one row; it does not depend on the stored
batch state (see create_fst_indep below). -/
def createRecord (row : ParsedRow) (row_number : Nat) (outcome : CreateOutcome) :
    HospitalRecord :=
  (_create_hospital_from_row row row_number outcome none).1

/-- The mutation _create_hospital_from_row performs on the stored batch record
when it finds it (see create_snd_eq_itemEffect below). -/
def itemEffect (outcome : CreateOutcome) (b : BatchData) : BatchData :=
  match outcome with
  | .success _ =>
      { b with processed_hospitals :=
          (b.hospitals.filter fun r => successStatus r.status).length + 1 }
  | .apiFailure => { b with failed_hospitals := b.failed_hospitals + 1 }
  | .exn _ => { b with failed_hospitals := b.failed_hospitals + 1 }

/-- The stored batch record after the items whose outcomes are listed in
`resolved` have completed, in that (arbitrary) completion order, while the
creation phase is still in flight.  Each per-item update block runs without an
await inside it, hence atomically under the asyncio event loop. -/
def midBatch (b0 : BatchData) (resolved : List CreateOutcome) : BatchData :=
  resolved.foldl (fun b o => itemEffect o b) b0

/-- The list asyncio.gather returns: one record per (row, outcome) pair, in
input position order, with 1-based row numbers continuing from `idx`
(enumerate(parsed_rows, start=1)). -/
def gatherFrom : List (ParsedRow × CreateOutcome) → Nat → List HospitalRecord
  | [], _ => []
  | (row, o) :: rest, idx => createRecord row idx o :: gatherFrom rest (idx + 1)

/-- app/services/batch_service.py: _create_hospitals_parallel, restricted to
the value it returns.  The gather assembles results by task position, not by
completion time; the concurrency gate is modelled separately by ExecStep. -/
def _create_hospitals_parallel (parsed_rows : List ParsedRow)
    (outcomes : List CreateOutcome) : List HospitalRecord :=
  gatherFrom (parsed_rows.zip outcomes) 1

/-- The loop upgrading every CREATED record after a successful activation:
`if hospital_record.status == HospitalStatus.CREATED:
hospital_record.status = HospitalStatus.CREATED_AND_ACTIVATED`. -/
def activationUpgrade (r : HospitalRecord) : HospitalRecord :=
  if r.status == .CREATED then { r with status := .CREATED_AND_ACTIVATED } else r

/-- The activation block of _process_batch_async (lines 76-87): returns
(whether activate_batch was invoked, batch_activated, the record list after
the in-place upgrade loop).  `activation_result` is what
hospital_service.activate_batch would return if invoked (None on any error). -/
def activationPhase (processed_count : Nat)
    (activation_result : Option ActivateResponse)
    (hospitals_records : List HospitalRecord) :
    Bool × Bool × List HospitalRecord :=
  if 0 < processed_count then
    match activation_result with
    | some ar =>
        if 0 < ar.activated_count then
          (true, true, hospitals_records.map activationUpgrade)
        else (true, false, hospitals_records)
    | none => (true, false, hospitals_records)
  else (false, false, hospitals_records)

/-- app/services/batch_service.py: _process_batch_async, as the function from
the batch record read at phase start (which the source first stamps
PROCESSING; that field is overwritten by the terminal status below) and the
per-item outcomes to the finally saved batch record.  The Bool is whether the
remote bulk-activation capability was invoked.  The counts the source computes
after the gather and the terminal status are written verbatim; the in-flight
incremental saves this final save overwrites are modelled by midBatch. -/
def _process_batch_async (batch_data : BatchData) (parsed_rows : List ParsedRow)
    (outcomes : List CreateOutcome)
    (activation_result : Option ActivateResponse) : BatchData × Bool :=
  let hospitals_records := _create_hospitals_parallel parsed_rows outcomes
  let processed_count := (hospitals_records.filter fun h => h.status == .CREATED).length
  let failed_count := (hospitals_records.filter fun h => h.status == .FAILED).length
  let act := activationPhase processed_count activation_result hospitals_records
  ({ batch_data with
      hospitals := act.2.2,
      processed_hospitals := processed_count,
      failed_hospitals := failed_count,
      batch_activated := act.2.1,
      processing_status :=
        if failed_count = 0 then .COMPLETED
        else if 0 < processed_count then .PARTIALLY_COMPLETED
        else .FAILED },
   act.1)

/-- Number of records in a success status (CREATED or CREATED_AND_ACTIVATED). -/
def successCount (records : List HospitalRecord) : Nat :=
  (records.filter fun h => successStatus h.status).length

/-- Number of records with status FAILED. -/
def failureCount (records : List HospitalRecord) : Nat :=
  (records.filter fun h => h.status == .FAILED).length

/-- Whether a per-item outcome is a remote success. -/
def isSuccessOutcome : CreateOutcome → Bool
  | .success _ => true
  | .apiFailure => false
  | .exn _ => false

/-- Lookup in `external_hospitals_map = {h.id: h for h in external_hospitals}`:
a dict comprehension keeps the last entry per key, hence the reverse find. -/
def lookupById (external_hospitals : List Hospital) (hid : Nat) : Option Hospital :=
  external_hospitals.reverse.find? fun h => h.id == hid

/-- One iteration of the reconciliation loop in get_batch_status: the updated
record and the increment it contributes to deleted_count.  The guard
`if hospital_record.hospital_id:` tests Python truthiness of an Optional[int],
so a record whose remote identity is None or the falsy 0 is skipped
untouched and uncounted. -/
def reconcileRecord (external_hospitals : List Hospital) (r : HospitalRecord) :
    HospitalRecord × Nat :=
  match r.hospital_id with
  | none => (r, 0)
  | some hid =>
      if hid = 0 then (r, 0)
      else
        match lookupById external_hospitals hid with
        | none =>
            if r.status = .DELETED then (r, 0)
            else ({ r with status := .DELETED }, 1)
        | some h =>
            if h.active then
              if r.status = .DELETED then (r, 0)
              else ({ r with status := .CREATED_AND_ACTIVATED }, 0)
            else
              if r.status = .DELETED ∨ r.status = .FAILED then (r, 0)
              else ({ r with status := .CREATED }, 0)

/-- The whole reconciliation loop: updated records and the final deleted_count
(which starts at 0 on every call). -/
def reconcile (external_hospitals : List Hospital) :
    List HospitalRecord → List HospitalRecord × Nat
  | [] => ([], 0)
  | r :: rest =>
      let p := reconcileRecord external_hospitals r
      let q := reconcile external_hospitals rest
      (p.1 :: q.1, p.2 + q.2)

/-- app/services/hospital_service.py: get_hospitals_by_batch.  `fetch` is the
parsed response if the HTTP roundtrip succeeded; any exception is caught and
the empty list returned. -/
def get_hospitals_by_batch (fetch : Option (List Hospital)) : List Hospital :=
  match fetch with
  | some hs => hs
  | none => []

/-- The membership test `batch_data.processing_status in
[BatchProcessingStatus.COMPLETED, BatchProcessingStatus.PARTIALLY_COMPLETED]`. -/
def successBearingTerminal (s : BatchProcessingStatus) : Bool :=
  s == .COMPLETED || s == .PARTIALLY_COMPLETED

/-- app/utils/exceptions.py: BatchNotFoundException (404 for an unknown id). -/
structure BatchNotFoundException where
  batch_id : String
deriving DecidableEq, Repr

/-- app/models/schemas.py: BatchStatusResponse. -/
structure BatchStatusResponse where
  batch_id : String
  total_hospitals : Nat
  processed_hospitals : Nat
  failed_hospitals : Nat
  deleted_hospitals : Nat
  batch_activated : Bool
  processing_status : BatchProcessingStatus
  hospitals : List HospitalRecord
deriving DecidableEq, Repr

/-- app/services/batch_service.py: get_batch_status.  `store` is the result of
repository.get(batch_id); `fetch` feeds get_hospitals_by_batch when the remote
list is consulted (none = transport failure).  Returns the response together
with the batch record saved back to the repository. -/
def get_batch_status (batch_id : String) (store : Option BatchData)
    (fetch : Option (List Hospital)) :
    Except BatchNotFoundException (BatchStatusResponse × BatchData) :=
  match store with
  | none => .error ⟨batch_id⟩
  | some batch_data =>
      if successBearingTerminal batch_data.processing_status then
        let external_hospitals := get_hospitals_by_batch fetch
        let rec2 := reconcile external_hospitals batch_data.hospitals
        let batch_data2 := { batch_data with hospitals := rec2.1 }
        .ok ({ batch_id := batch_id,
               total_hospitals := batch_data2.total_hospitals,
               processed_hospitals := batch_data2.processed_hospitals,
               failed_hospitals := batch_data2.failed_hospitals,
               deleted_hospitals := rec2.2,
               batch_activated := batch_data2.batch_activated,
               processing_status := batch_data2.processing_status,
               hospitals := batch_data2.hospitals }, batch_data2)
      else
        let deleted_count :=
          (batch_data.hospitals.filter fun h => h.status == .DELETED).length
        .ok ({ batch_id := batch_id,
               total_hospitals := batch_data.total_hospitals,
               processed_hospitals := batch_data.processed_hospitals,
               failed_hospitals := batch_data.failed_hospitals,
               deleted_hospitals := deleted_count,
               batch_activated := batch_data.batch_activated,
               processing_status := batch_data.processing_status,
               hospitals := batch_data.hospitals }, batch_data)

/-- Rounding to two decimal places, the model of round(x, 2). -/
def round2 (q : ℚ) : ℚ := (round (q * 100) : ℤ) / 100

/-- app/models/schemas.py: BatchProgressResponse (percentage as an exact
rational in place of the float). -/
structure BatchProgressResponse where
  batch_id : String
  progress_percentage : ℚ
  processing_status : BatchProcessingStatus
  processed_hospitals : Nat
  total_hospitals : Nat
  failed_hospitals : Nat
  current_message : String
deriving DecidableEq, Repr

/-- app/services/batch_service.py: get_batch_progress. -/
def get_batch_progress (batch_id : String) (store : Option BatchData) :
    Except BatchNotFoundException BatchProgressResponse :=
  match store with
  | none => .error ⟨batch_id⟩
  | some batch_data =>
      let total := batch_data.total_hospitals
      let processed := batch_data.processed_hospitals + batch_data.failed_hospitals
      let progress_percentage : ℚ :=
        if 0 < total then (processed : ℚ) / (total : ℚ) * 100 else 0
      let failed := batch_data.failed_hospitals
      let current_message :=
        if batch_data.processing_status = .PENDING then "Batch processing queued"
        else if batch_data.processing_status = .PROCESSING then
          s!"Processing hospital {processed}/{total}"
        else if batch_data.processing_status = .COMPLETED then
          "All hospitals processed successfully"
        else if batch_data.processing_status = .PARTIALLY_COMPLETED then
          s!"Completed with {failed} failures"
        else if batch_data.processing_status = .FAILED then "Processing failed"
        else "Unknown status"
      .ok { batch_id := batch_id,
            progress_percentage := round2 progress_percentage,
            processing_status := batch_data.processing_status,
            processed_hospitals := processed,
            total_hospitals := total,
            failed_hospitals := failed,
            current_message := current_message }

/-- One error dict from app/utils/csv_validator.py (the loc list is carried
as the optional offending row number; file-level errors have none). -/
structure CSVError where
  loc_row : Option Nat := none
  msg : String
  type : String
deriving DecidableEq, Repr

/-- One raw row as produced by csv.DictReader under the validated header set
name,address,phone. -/
structure RawRow where
  name : String
  address : String
  phone : Option String := none
deriving DecidableEq, Repr

/-- app/utils/csv_validator.py: CSVValidator._validate_row. -/
def _validate_row (row : RawRow) (row_number : Nat) : List CSVError :=
  (if pyStrip row.name = "" then
      [{ loc_row := some row_number,
         msg := "name is required and must be at least 1 character",
         type := "value_error" }]
    else []) ++
  (if pyStrip row.address = "" then
      [{ loc_row := some row_number,
         msg := "address is required and must be at least 1 character",
         type := "value_error" }]
    else [])

/-- The row loop of validate_and_parse: accumulates errors and parsed rows;
row_number is incremented before each row (the first data row is row 2). -/
def parseRows : List RawRow → Nat → List CSVError × List ParsedRow
  | [], _ => ([], [])
  | row :: rest, row_number =>
      let row_errors := _validate_row row (row_number + 1)
      let q := parseRows rest (row_number + 1)
      if row_errors.isEmpty then
        let phone := if row.phone = some "" then none else row.phone
        (q.1, { name := row.name, address := row.address, phone := phone } :: q.2)
      else
        (row_errors ++ q.1, q.2)

/-- app/utils/csv_validator.py: validate_and_parse, after decoding, size check
and header check have passed (those reject the file before any row is read and
are out of scope of the claims).  Raising CSVValidationException is the error
branch of the Except. -/
def validate_and_parse (rows : List RawRow) :
    Except (List CSVError) (List ParsedRow) :=
  let q := parseRows rows 1
  let errors :=
    if q.2.isEmpty && q.1.isEmpty then
      q.1 ++ [{ msg := "CSV file contains no data rows", type := "empty_file" }]
    else q.1
  if errors.isEmpty then .ok q.2 else .error errors

/-- app/models/schemas.py: BatchUploadResponse. -/
structure BatchUploadResponse where
  batch_id : String
  total_hospitals : Nat
  message : String
  status : BatchProcessingStatus
deriving DecidableEq, Repr

/-- app/services/batch_service.py: initiate_csv_upload, with the generated
uuid passed in as batch_id.  Returns the BatchData saved into the repository
before the background task is spawned, and the immediate response. -/
def initiate_csv_upload (batch_id : String) (rows : List RawRow) :
    Except (List CSVError) (BatchData × BatchUploadResponse) :=
  match validate_and_parse rows with
  | .error e => .error e
  | .ok parsed_rows =>
      let batch_data : BatchData :=
        { batch_id := batch_id,
          total_hospitals := parsed_rows.length,
          processing_status := .PENDING }
      .ok (batch_data,
        { batch_id := batch_id,
          total_hospitals := parsed_rows.length,
          message := "CSV upload initiated. Use batch_id to track progress.",
          status := .PENDING })

/-- app/services/batch_service.py line 20: the semaphore bound. -/
def MAX_CONCURRENT_REQUESTS : Nat := 20

/-- Abstract state of one _create_hospitals_parallel invocation: how many
per-item tasks still wait on the semaphore, how many hold a permit (and hence
may have a remote create call in flight), and how many have finished. -/
structure ExecState where
  waiting : Nat
  running : Nat
  finished : Nat
deriving DecidableEq, Repr

/-- Small-step semantics of `async with semaphore` around the per-item worker:
a waiting task is admitted only while fewer than MAX_CONCURRENT_REQUESTS
permits are out (asyncio.Semaphore(MAX_CONCURRENT_REQUESTS)); a running task
may finish, releasing its permit. -/
inductive ExecStep : ExecState → ExecState → Prop
  | acquire (w r f : Nat) (hw : 0 < w) (hr : r < MAX_CONCURRENT_REQUESTS) :
      ExecStep ⟨w, r, f⟩ ⟨w - 1, r + 1, f⟩
  | release (w r f : Nat) (hr : 0 < r) :
      ExecStep ⟨w, r, f⟩ ⟨w, r - 1, f + 1⟩

/-- Initial executor state: n tasks created, none admitted yet. -/
def execInit (n : Nat) : ExecState := ⟨n, 0, 0⟩

/-- States an executor invocation over n items can reach. -/
def ExecReachable (n : Nat) (s : ExecState) : Prop :=
  Relation.ReflTransGen ExecStep (execInit n) s

/-- The record test used to state reconciliation counting: the record holds a
truthy (non-zero) remote identity absent from the remote list and is not
already DELETED, so this reconciliation freshly marks it DELETED. -/
def freshlyDeleted (external_hospitals : List Hospital) (r : HospitalRecord) : Bool :=
  match r.hospital_id with
  | some hid =>
      hid != 0 && (lookupById external_hospitals hid).isNone
        && !(r.status == .DELETED)
  | none => false

/-- Reconciliation of one record against an empty remote list (used to state
what a failed list fetch does to the batch): records without a truthy remote
identity are skipped by the Python guard and keep their status. -/
def emptyFetchReconcile (r : HospitalRecord) : HospitalRecord :=
  match r.hospital_id with
  | some hid =>
      if hid = 0 then r
      else if r.status = .DELETED then r else { r with status := .DELETED }
  | none => r

/-- A batch mid-creation: observation point for the counter invariants. -/
def exBatch2 : BatchData :=
  { batch_id := "batch-2", total_hospitals := 2,
    processing_status := .PROCESSING }

/-- A COMPLETED one-item batch whose record a previous reconciliation already
marked DELETED. -/
def exBatchDeleted : BatchData :=
  { batch_id := "batch-4", total_hospitals := 1, processed_hospitals := 1,
    processing_status := .COMPLETED,
    hospitals := [{ row := 1, hospital_id := some 1, name := "A",
                    address := "B", status := .DELETED }] }

/-- A COMPLETED one-item batch with a live activated record. -/
def exBatchLive : BatchData :=
  { batch_id := "batch-5", total_hospitals := 1, processed_hospitals := 1,
    processing_status := .COMPLETED,
    hospitals := [{ row := 1, hospital_id := some 7, name := "A",
                    address := "B", status := .CREATED_AND_ACTIVATED }] }

/-- A concrete remote entity for witnesses. -/
def exHospital : Hospital :=
  { id := 7, name := "A", address := "B", active := true }

/-- A concrete parsed row for witnesses. -/
def exRow : ParsedRow := { name := "A", address := "B" }

/-- A concrete raw CSV row for witnesses. -/
def exRawRow : RawRow := { name := "A", address := "B" }

/-- A concrete pending batch for witnesses. -/
def exBatch0 : BatchData :=
  { batch_id := "batch-0", total_hospitals := 1 }

/-- Whether the activation response reports at least one activation
(`activation_result and activation_result.activated_count > 0`). -/
def activationSucceeded (act : Option ActivateResponse) : Bool :=
  match act with
  | some ar => decide (0 < ar.activated_count)
  | none => false

/-- Extracts the ok payload of a status query (used to name concrete query
results in witnesses; the error fallback is never reached there). -/
def okPair (e : Except BatchNotFoundException (BatchStatusResponse × BatchData)) :
    BatchStatusResponse × BatchData :=
  match e with
  | .ok p => p
  | .error _ =>
      ({ batch_id := "", total_hospitals := 0, processed_hospitals := 0,
         failed_hospitals := 0, deleted_hospitals := 0, batch_activated := false,
         processing_status := .PENDING, hospitals := [] },
       { batch_id := "", total_hospitals := 0 })

/-- The response initiate_csv_upload returns for exRawRow. -/
def exUploadResp : BatchUploadResponse :=
  { batch_id := "batch-0", total_hospitals := 1,
    message := "CSV upload initiated. Use batch_id to track progress.",
    status := .PENDING }

/-- The batch exBatch0 after its one item succeeds and activation is not
consulted further (activation result none). -/
def exFinalBatch : BatchData :=
  (_process_batch_async exBatch0 [exRow] [CreateOutcome.success exHospital] none).1

/-- The concrete result of a status query on exFinalBatch with the remote
list reporting exHospital. -/
def exStatusPair : BatchStatusResponse × BatchData :=
  okPair (get_batch_status "batch-0" (some exFinalBatch) (some [exHospital]))

/-- The concrete result of a status query on exBatchDeleted with an empty
remote list. -/
def exDeletedPair : BatchStatusResponse × BatchData :=
  okPair (get_batch_status "batch-4" (some exBatchDeleted) (some []))

/-- The concrete result of a status query on exBatchLive whose remote list
fetch failed. -/
def exLivePair : BatchStatusResponse × BatchData :=
  okPair (get_batch_status "batch-5" (some exBatchLive) none)

/-- The record a per-item worker returns does not depend on the stored batch
state it happens to observe. -/
theorem create_fst_indep (row : ParsedRow) (n : Nat) (o : CreateOutcome)
    (store : Option BatchData) :
    (_create_hospital_from_row row n o store).1 = createRecord row n o := by
  cases o <;> cases store <;> rfl

/-- The batch mutation a per-item worker performs is itemEffect. -/
theorem create_snd_eq_itemEffect (row : ParsedRow) (n : Nat) (o : CreateOutcome)
    (b : BatchData) :
    (_create_hospital_from_row row n o (some b)).2 = some (itemEffect o b) := by
  cases o <;> rfl

/-- Every record the worker produces is CREATED or FAILED. -/
theorem createRecord_status (row : ParsedRow) (n : Nat) (o : CreateOutcome) :
    (createRecord row n o).status = .CREATED ∨ (createRecord row n o).status = .FAILED := by
  cases o <;> simp [createRecord, _create_hospital_from_row]

/-- The worker stamps the record with its own row number. -/
theorem createRecord_row (row : ParsedRow) (n : Nat) (o : CreateOutcome) :
    (createRecord row n o).row = n := by
  cases o <;> rfl

/-- The gather produces one record per task. -/
theorem gatherFrom_length (l : List (ParsedRow × CreateOutcome)) (idx : Nat) :
    (gatherFrom l idx).length = l.length := by
  induction l generalizing idx with
  | nil => rfl
  | cons p rest ih => cases p with | mk row o => simp [gatherFrom, ih]

/-- Every gathered record is CREATED or FAILED. -/
theorem gatherFrom_status (l : List (ParsedRow × CreateOutcome)) (idx : Nat) :
    ∀ r ∈ gatherFrom l idx, r.status = .CREATED ∨ r.status = .FAILED := by
  induction l generalizing idx with
  | nil => intro r hr; simp [gatherFrom] at hr
  | cons p rest ih =>
      cases p with
      | mk row o =>
          intro r hr
          simp only [gatherFrom, List.mem_cons] at hr
          rcases hr with h | h

          · subst h; exact createRecord_status row idx o
          · exact ih (idx + 1) r h

/-- The gathered records carry consecutive row numbers starting at idx. -/
theorem gatherFrom_rows (l : List (ParsedRow × CreateOutcome)) (idx : Nat) :
    (gatherFrom l idx).map (fun r => r.row) = List.range' idx l.length := by
  induction l generalizing idx with
  | nil => rfl
  | cons p rest ih =>
      cases p with
      | mk row o =>
          simp [gatherFrom, createRecord_row, ih, List.range'_succ]

/-- Partition of a list length by a Boolean predicate. -/
theorem length_filter_add_length_not {α : Type} (p : α → Bool) (l : List α) :
    (l.filter p).length + (l.filter fun a => !(p a)).length = l.length := by
  induction l with
  | nil => rfl
  | cons a rest ih => cases h : p a <;> simp [List.filter_cons, h] <;> omega

/-- On a list of CREATED/FAILED records, the success-status count is the
CREATED count. -/
theorem successCount_eq_created (l : List HospitalRecord)
    (h : ∀ r ∈ l, r.status = .CREATED ∨ r.status = .FAILED) :
    successCount l = (l.filter fun x => x.status == .CREATED).length := by
  unfold successCount
  congr 1
  apply List.filter_congr
  intro r hr
  rcases h r hr with h2 | h2 <;> simp [successStatus, h2]

/-- On a list of CREATED/FAILED records, CREATED and FAILED counts exhaust
the list. -/
theorem created_add_failed (l : List HospitalRecord)
    (h : ∀ r ∈ l, r.status = .CREATED ∨ r.status = .FAILED) :
    (l.filter fun x => x.status == .CREATED).length +
      (l.filter fun x => x.status == .FAILED).length = l.length := by
  have h2 : (l.filter fun x => x.status == .FAILED)
      = (l.filter fun x => !(x.status == .CREATED)) := by
    apply List.filter_congr
    intro r hr
    rcases h r hr with h3 | h3 <;> simp [h3]
  rw [h2]
  exact length_filter_add_length_not _ l

/-- The upgrade loop preserves whether a record counts as a success. -/
theorem statusUpgrade_success (r : HospitalRecord) :
    successStatus (activationUpgrade r).status = successStatus r.status := by
  cases h : r.status <;> simp [activationUpgrade, successStatus, h]

/-- The upgrade loop preserves whether a record counts as FAILED. -/
theorem statusUpgrade_failed (r : HospitalRecord) :
    ((activationUpgrade r).status == HospitalStatus.FAILED)
      = (r.status == HospitalStatus.FAILED) := by
  cases h : r.status <;> simp [activationUpgrade, h]

/-- The upgrade loop preserves the success-status count. -/
theorem successCount_upgrade (l : List HospitalRecord) :
    successCount (l.map activationUpgrade) = successCount l := by
  unfold successCount
  induction l with
  | nil => rfl
  | cons r rest ih =>
      simp only [List.map_cons, List.filter_cons, statusUpgrade_success]
      split <;> simp [ih]

/-- The upgrade loop preserves the FAILED count. -/
theorem failureCount_upgrade (l : List HospitalRecord) :
    failureCount (l.map activationUpgrade) = failureCount l := by
  unfold failureCount
  induction l with
  | nil => rfl
  | cons r rest ih =>
      simp only [List.map_cons, List.filter_cons, statusUpgrade_failed]
      split <;> simp [ih]

/-- activate_batch is invoked exactly when the success count is positive. -/
theorem activationPhase_fst (pc : Nat) (act : Option ActivateResponse)
    (l : List HospitalRecord) :
    (activationPhase pc act l).1 = decide (0 < pc) := by
  rcases act with _ | ar
  · unfold activationPhase
    by_cases hpc : 0 < pc <;> simp [hpc]
  · unfold activationPhase
    by_cases hpc : 0 < pc
    · by_cases har : 0 < ar.activated_count <;> simp [hpc, har]
    · simp [hpc]

/-- The activated flag and the final record list of the activation block. -/
theorem activationPhase_snd (pc : Nat) (act : Option ActivateResponse)
    (l : List HospitalRecord) :
    (activationPhase pc act l).2.1 = (decide (0 < pc) && activationSucceeded act) ∧
    (activationPhase pc act l).2.2 =
      (if decide (0 < pc) && activationSucceeded act
        then l.map activationUpgrade else l) := by
  rcases act with _ | ar
  · unfold activationPhase activationSucceeded
    by_cases hpc : 0 < pc <;> simp [hpc]
  · unfold activationPhase activationSucceeded
    by_cases hpc : 0 < pc
    · by_cases har : 0 < ar.activated_count <;> simp [hpc, har]
    · simp [hpc]

/-- The per-item mutation never touches the stored item sequence. -/
theorem itemEffect_hospitals (o : CreateOutcome) (b : BatchData) :
    (itemEffect o b).hospitals = b.hospitals := by
  cases o <;> rfl

/-- The per-item mutation never touches the total. -/
theorem itemEffect_total (o : CreateOutcome) (b : BatchData) :
    (itemEffect o b).total_hospitals = b.total_hospitals := by
  cases o <;> rfl

/-- Unrolling one completion event. -/
theorem midBatch_cons (o : CreateOutcome) (rest : List CreateOutcome) (b : BatchData) :
    midBatch b (o :: rest) = midBatch (itemEffect o b) rest := rfl

/-- The stored item sequence is untouched while items complete. -/
theorem midBatch_hospitals (resolved : List CreateOutcome) (b : BatchData) :
    (midBatch b resolved).hospitals = b.hospitals := by
  induction resolved generalizing b with
  | nil => rfl
  | cons o rest ih => rw [midBatch_cons, ih, itemEffect_hospitals]

/-- The total is untouched while items complete. -/
theorem midBatch_total (resolved : List CreateOutcome) (b : BatchData) :
    (midBatch b resolved).total_hospitals = b.total_hospitals := by
  induction resolved generalizing b with
  | nil => rfl
  | cons o rest ih => rw [midBatch_cons, ih, itemEffect_total]

/-- The stored failure counter after some completions: one increment per
non-success outcome. -/
theorem midBatch_failed (resolved : List CreateOutcome) (b : BatchData) :
    (midBatch b resolved).failed_hospitals =
      b.failed_hospitals + (resolved.filter fun o => !(isSuccessOutcome o)).length := by
  induction resolved generalizing b with
  | nil => simp [midBatch]
  | cons o rest ih =>
      rw [midBatch_cons, ih]
      cases o <;> simp [itemEffect, isSuccessOutcome, List.filter_cons] <;> omega

/-- The stored success counter after some completions, for a batch whose item
sequence has not been assembled yet: each success event recomputes it from the
still-empty sequence plus one, so it is stuck at one. -/
theorem midBatch_processed (resolved : List CreateOutcome) (b : BatchData)
    (hh : b.hospitals = []) :
    (midBatch b resolved).processed_hospitals =
      (if 0 < (resolved.filter isSuccessOutcome).length then 1
       else b.processed_hospitals) := by
  induction resolved generalizing b with
  | nil => simp [midBatch]
  | cons o rest ih =>
      rw [midBatch_cons]
      cases o with
      | success h =>
          rw [ih (itemEffect (.success h) b) (by simp [itemEffect, hh])]
          simp [itemEffect, hh, List.filter_cons, isSuccessOutcome]
      | apiFailure =>
          rw [ih (itemEffect .apiFailure b) (by simp [itemEffect, hh])]
          simp [itemEffect, List.filter_cons, isSuccessOutcome]
      | exn msg =>
          rw [ih (itemEffect (.exn msg) b) (by simp [itemEffect, hh])]
          simp [itemEffect, List.filter_cons, isSuccessOutcome]

/-- The deleted_count increment of one reconciliation iteration is exactly
the freshlyDeleted test. -/
theorem reconcileRecord_snd (xs : List Hospital) (r : HospitalRecord) :
    (reconcileRecord xs r).2 = if freshlyDeleted xs r then 1 else 0 := by
  unfold reconcileRecord freshlyDeleted
  cases hid : r.hospital_id with
  | none => simp
  | some i =>
      by_cases hz : i = 0
      · simp [hz]
      · cases hl : lookupById xs i with
        | none =>
            by_cases hs : r.status = HospitalStatus.DELETED <;> simp [hz, hl, hs]
        | some h =>
            by_cases ha : h.active = true
            · by_cases hs : r.status = HospitalStatus.DELETED <;>
                simp [hz, hl, ha, hs]
            · by_cases hs : r.status = HospitalStatus.DELETED ∨
                  r.status = HospitalStatus.FAILED <;> simp [hz, hl, ha, hs]

/-- The deleted_count of a whole reconciliation pass counts exactly the
records it freshly marks DELETED. -/
theorem reconcile_snd (xs : List Hospital) (l : List HospitalRecord) :
    (reconcile xs l).2 = (l.filter (freshlyDeleted xs)).length := by
  induction l with
  | nil => rfl
  | cons r rest ih =>
      simp only [reconcile, List.filter_cons, reconcileRecord_snd, ih]
      by_cases hfd : freshlyDeleted xs r = true <;> simp [hfd]
      omega

/-- No remote entity is ever found in an empty remote list. -/
theorem lookupById_nil (hid : Nat) : lookupById [] hid = none := rfl

/-- Against an empty remote list, one reconciliation iteration acts as
emptyFetchReconcile. -/
theorem reconcileRecord_nil (r : HospitalRecord) :
    (reconcileRecord [] r).1 = emptyFetchReconcile r := by
  unfold reconcileRecord emptyFetchReconcile
  cases hid : r.hospital_id with
  | none => simp
  | some i =>
      by_cases hz : i = 0
      · simp [hz]
      · by_cases hs : r.status = HospitalStatus.DELETED <;>
          simp [hz, lookupById_nil, hs]

/-- Against an empty remote list, reconciliation maps emptyFetchReconcile over
the stored records. -/
theorem reconcile_nil_fst (l : List HospitalRecord) :
    (reconcile [] l).1 = l.map emptyFetchReconcile := by
  induction l with
  | nil => rfl
  | cons r rest ih => simp [reconcile, reconcileRecord_nil, ih]

/-- A status query never changes the stored counters or the total; only the
item statuses are reconciled. -/
theorem get_batch_status_preserves (batch_id : String) (b : BatchData)
    (fetch : Option (List Hospital)) (resp : BatchStatusResponse) (b2 : BatchData)
    (hq : get_batch_status batch_id (some b) fetch = .ok (resp, b2)) :
    b2.processed_hospitals = b.processed_hospitals ∧
    b2.failed_hospitals = b.failed_hospitals ∧
    b2.total_hospitals = b.total_hospitals := by
  simp only [get_batch_status] at hq
  by_cases ht : successBearingTerminal b.processing_status = true
  · simp only [if_pos ht, Except.ok.injEq, Prod.mk.injEq] at hq
    rcases hq with ⟨h1, h2⟩
    subst h2
    exact ⟨rfl, rfl, rfl⟩
  · simp only [if_neg ht, Except.ok.injEq, Prod.mk.injEq] at hq
    rcases hq with ⟨h1, h2⟩
    subst h2
    exact ⟨rfl, rfl, rfl⟩

/-- All fields of the batch record saved at the end of the creation phase,
in terms of the gathered records. -/
theorem process_batch_fields (b : BatchData) (rows : List ParsedRow)
    (outcomes : List CreateOutcome) (act : Option ActivateResponse) :
    (_process_batch_async b rows outcomes act).1.processed_hospitals
        = ((_create_hospitals_parallel rows outcomes).filter
            fun h => h.status == HospitalStatus.CREATED).length ∧
    (_process_batch_async b rows outcomes act).1.failed_hospitals
        = ((_create_hospitals_parallel rows outcomes).filter
            fun h => h.status == HospitalStatus.FAILED).length ∧
    (_process_batch_async b rows outcomes act).1.total_hospitals = b.total_hospitals ∧
    (_process_batch_async b rows outcomes act).1.processing_status =
      (if ((_create_hospitals_parallel rows outcomes).filter
            fun h => h.status == HospitalStatus.FAILED).length = 0
        then BatchProcessingStatus.COMPLETED
        else if 0 < ((_create_hospitals_parallel rows outcomes).filter
            fun h => h.status == HospitalStatus.CREATED).length
        then BatchProcessingStatus.PARTIALLY_COMPLETED
        else BatchProcessingStatus.FAILED) ∧
    (_process_batch_async b rows outcomes act).1.batch_activated =
      (decide (0 < ((_create_hospitals_parallel rows outcomes).filter
          fun h => h.status == HospitalStatus.CREATED).length) && activationSucceeded act) ∧
    (_process_batch_async b rows outcomes act).1.hospitals =
      (if (decide (0 < ((_create_hospitals_parallel rows outcomes).filter
            fun h => h.status == HospitalStatus.CREATED).length) && activationSucceeded act)
        then (_create_hospitals_parallel rows outcomes).map activationUpgrade
        else _create_hospitals_parallel rows outcomes) ∧
    (_process_batch_async b rows outcomes act).2 =
      decide (0 < ((_create_hospitals_parallel rows outcomes).filter
          fun h => h.status == HospitalStatus.CREATED).length) :=
  ⟨rfl, rfl, rfl, rfl, (activationPhase_snd _ _ _).1, (activationPhase_snd _ _ _).2,
    activationPhase_fst _ _ _⟩

/-- C1: after the creation phase drains, the terminal status the orchestrator
writes is COMPLETED when the failure count over the stored records is 0, else
PARTIALLY_COMPLETED when the success count is positive, else FAILED; and the
written status is always one of these three terminal statuses. -/
theorem claim_C1 (b : BatchData) (rows : List ParsedRow)
    (outcomes : List CreateOutcome) (act : Option ActivateResponse) :
    (_process_batch_async b rows outcomes act).1.processing_status =
      (if failureCount (_process_batch_async b rows outcomes act).1.hospitals = 0
        then BatchProcessingStatus.COMPLETED
        else if 0 < successCount (_process_batch_async b rows outcomes act).1.hospitals
        then BatchProcessingStatus.PARTIALLY_COMPLETED
        else BatchProcessingStatus.FAILED) ∧
    ((_process_batch_async b rows outcomes act).1.processing_status =
        BatchProcessingStatus.COMPLETED ∨
     (_process_batch_async b rows outcomes act).1.processing_status =
        BatchProcessingStatus.PARTIALLY_COMPLETED ∨
     (_process_batch_async b rows outcomes act).1.processing_status =
        BatchProcessingStatus.FAILED) := by
  obtain ⟨hp, hf, ht, hst, hba, hh, hinv⟩ := process_batch_fields b rows outcomes act
  have hall := gatherFrom_status (rows.zip outcomes) 1
  have hfc : failureCount (_process_batch_async b rows outcomes act).1.hospitals
      = ((_create_hospitals_parallel rows outcomes).filter
          fun h => h.status == HospitalStatus.FAILED).length := by
    rw [hh]
    split
    · exact failureCount_upgrade _
    · rfl
  have hsc : successCount (_process_batch_async b rows outcomes act).1.hospitals
      = ((_create_hospitals_parallel rows outcomes).filter
          fun h => h.status == HospitalStatus.CREATED).length := by
    rw [hh]
    split
    · rw [successCount_upgrade]
      exact successCount_eq_created _ hall
    · exact successCount_eq_created _ hall
  constructor
  · rw [hst, hfc, hsc]
  · rw [hst]
    by_cases h1 : ((_create_hospitals_parallel rows outcomes).filter
        fun h => h.status == HospitalStatus.FAILED).length = 0
    · simp [h1]
    · by_cases h2 : 0 < ((_create_hospitals_parallel rows outcomes).filter
          fun h => h.status == HospitalStatus.CREATED).length <;> simp [h1, h2]

/-- C2: evaluation at a failing input.  While a two-item batch is in flight,
after its first item resolves as a failure the stored failure counter is 1
although the stored item sequence (still empty) holds no FAILED record; and
after two items resolve as successes the stored success counter is 1, not 2,
because each success recomputes it from the still-empty sequence plus one.
The stored counters therefore do not equal the counts over the authoritative
item sequence at every observation point, as the spec demands. -/
theorem claim_C2 :
    (midBatch exBatch2 [CreateOutcome.apiFailure]).failed_hospitals = 1 ∧
    ((midBatch exBatch2 [CreateOutcome.apiFailure]).hospitals.filter
        fun r => r.status == HospitalStatus.FAILED).length = 0 ∧
    (midBatch exBatch2 [CreateOutcome.success exHospital,
        CreateOutcome.success exHospital]).processed_hospitals = 1 ∧
    successCount (midBatch exBatch2 [CreateOutcome.success exHospital,
        CreateOutcome.success exHospital]).hospitals = 0 :=
  ⟨rfl, rfl, rfl, rfl⟩

/-- C3: while items complete in any order, the stored counters sum to at most
the total; the batch record sealed with the terminal status satisfies
processed + failed = total; and a status query on that terminal record
preserves the equality. -/
theorem claim_C3 (b0 : BatchData) (resolved : List CreateOutcome)
    (rows : List ParsedRow) (outcomes : List CreateOutcome)
    (act : Option ActivateResponse) (qid : String)
    (fetch : Option (List Hospital)) (resp : BatchStatusResponse) (b2 : BatchData)
    (h0p : b0.processed_hospitals = 0) (h0f : b0.failed_hospitals = 0)
    (h0h : b0.hospitals = [])
    (hres : resolved.length ≤ b0.total_hospitals)
    (hrows : rows.length = b0.total_hospitals)
    (hout : outcomes.length = rows.length)
    (hq : get_batch_status qid
        (some ((_process_batch_async b0 rows outcomes act).1)) fetch
        = .ok (resp, b2)) :
    (midBatch b0 resolved).processed_hospitals
        + (midBatch b0 resolved).failed_hospitals
        ≤ (midBatch b0 resolved).total_hospitals ∧
    (_process_batch_async b0 rows outcomes act).1.processed_hospitals
        + (_process_batch_async b0 rows outcomes act).1.failed_hospitals
        = (_process_batch_async b0 rows outcomes act).1.total_hospitals ∧
    b2.processed_hospitals + b2.failed_hospitals = b2.total_hospitals := by
  have hfinal : (_process_batch_async b0 rows outcomes act).1.processed_hospitals
      + (_process_batch_async b0 rows outcomes act).1.failed_hospitals
      = (_process_batch_async b0 rows outcomes act).1.total_hospitals := by
    obtain ⟨hpq, hfq, htq, _, _, _, _⟩ := process_batch_fields b0 rows outcomes act
    have hall := gatherFrom_status (rows.zip outcomes) 1
    have hsum := created_add_failed (gatherFrom (rows.zip outcomes) 1) hall
    have hlen : (gatherFrom (rows.zip outcomes) 1).length = b0.total_hospitals := by
      rw [gatherFrom_length, List.length_zip, hout, hrows, Nat.min_self]
    rw [hpq, hfq, htq]
    unfold _create_hospitals_parallel
    omega
  refine ⟨?_, hfinal, ?_⟩
  · have hp := midBatch_processed resolved b0 h0h
    have hf := midBatch_failed resolved b0
    have htot := midBatch_total resolved b0
    have hpart := length_filter_add_length_not isSuccessOutcome resolved
    rw [hp, hf, htot, h0p, h0f]
    by_cases hs : 0 < (resolved.filter isSuccessOutcome).length
    · rw [if_pos hs]
      omega
    · rw [if_neg hs]
      omega
  · obtain ⟨e1, e2, e3⟩ := get_batch_status_preserves qid _ fetch resp b2 hq
    omega

/-- Witness for C3 at a concrete one-item batch whose item succeeds. -/
theorem claim_C3_witness :
    (midBatch exBatch0 [CreateOutcome.success exHospital]).processed_hospitals
        + (midBatch exBatch0 [CreateOutcome.success exHospital]).failed_hospitals
        ≤ (midBatch exBatch0 [CreateOutcome.success exHospital]).total_hospitals ∧
    (_process_batch_async exBatch0 [exRow]
        [CreateOutcome.success exHospital] none).1.processed_hospitals
      + (_process_batch_async exBatch0 [exRow]
        [CreateOutcome.success exHospital] none).1.failed_hospitals
      = (_process_batch_async exBatch0 [exRow]
        [CreateOutcome.success exHospital] none).1.total_hospitals ∧
    exStatusPair.2.processed_hospitals + exStatusPair.2.failed_hospitals
        = exStatusPair.2.total_hospitals :=
  claim_C3 exBatch0 [CreateOutcome.success exHospital] [exRow]
    [CreateOutcome.success exHospital] none "batch-0" (some [exHospital])
    exStatusPair.1 exStatusPair.2 rfl rfl rfl (by decide) rfl rfl rfl

/-- C4 fails on the code: a COMPLETED batch holds one record a previous
reconciliation already marked DELETED; the remote list is empty, so the record
is still missing remotely, yet the status response reports deleted_hospitals
= 0 instead of the claimed fresh-plus-previous count 1, because the loop only
counts records it freshly marks. -/
theorem claim_C4_counterexample :
    (exBatchDeleted.hospitals.filter
        fun r => r.status == HospitalStatus.DELETED).length = 1 ∧
    exDeletedPair.1.deleted_hospitals = 0 ∧
    get_batch_status "batch-4" (some exBatchDeleted) (some [])
      = Except.ok (exDeletedPair.1, exDeletedPair.2) :=
  ⟨rfl, rfl, rfl⟩

/-- C4 amended: on a terminal success-bearing batch, deleted_hospitals equals
the number of records this reconciliation freshly marks DELETED (identity held
locally, absent from the remote list, not already DELETED); previously DELETED
records are not counted. -/
theorem claim_C4_amended (batch_id : String) (b : BatchData)
    (remote : List Hospital) (resp : BatchStatusResponse) (b2 : BatchData)
    (hterm : successBearingTerminal b.processing_status = true)
    (hq : get_batch_status batch_id (some b) (some remote) = .ok (resp, b2)) :
    resp.deleted_hospitals = (b.hospitals.filter (freshlyDeleted remote)).length := by
  simp only [get_batch_status] at hq
  rw [if_pos hterm] at hq
  simp only [Except.ok.injEq, Prod.mk.injEq] at hq
  rcases hq with ⟨h1, h2⟩
  subst h1
  exact reconcile_snd remote b.hospitals

/-- Witness for the amended C4 at the concrete previously-deleted batch. -/
theorem claim_C4_witness :
    exDeletedPair.1.deleted_hospitals
      = (exBatchDeleted.hospitals.filter (freshlyDeleted [])).length :=
  claim_C4_amended "batch-4" exBatchDeleted [] exDeletedPair.1 exDeletedPair.2 rfl rfl

/-- C5 fails on the code: when the remote list fetch fails the client returns
the empty list, and reconciling a COMPLETED batch against the empty list marks
its live record DELETED — the record status does change, contrary to the
claimed no-op; only the no-raise half of the claim holds. -/
theorem claim_C5_counterexample :
    get_hospitals_by_batch none = [] ∧
    exBatchLive.hospitals.map (fun r => r.status)
      = [HospitalStatus.CREATED_AND_ACTIVATED] ∧
    exLivePair.2.hospitals.map (fun r => r.status) = [HospitalStatus.DELETED] ∧
    get_batch_status "batch-5" (some exBatchLive) none
      = Except.ok (exLivePair.1, exLivePair.2) :=
  ⟨rfl, rfl, rfl, rfl⟩

/-- C5 amended: a status query on a terminal success-bearing batch whose
remote list fetch failed does not raise; the failed fetch is treated as an
empty remote list, under which every record holding a remote identity and not
already DELETED is marked DELETED (and counted), while records without a
remote identity keep their status. -/
theorem claim_C5_amended (batch_id : String) (b : BatchData)
    (resp : BatchStatusResponse) (b2 : BatchData)
    (hterm : successBearingTerminal b.processing_status = true)
    (hq : get_batch_status batch_id (some b) none = .ok (resp, b2)) :
    get_hospitals_by_batch none = [] ∧
    (get_batch_status batch_id (some b) none).toOption.isSome = true ∧
    b2.hospitals = b.hospitals.map emptyFetchReconcile ∧
    resp.deleted_hospitals = (b.hospitals.filter (freshlyDeleted [])).length := by
  have hok : (get_batch_status batch_id (some b) none).toOption.isSome = true := by
    rw [hq]
    rfl
  simp only [get_batch_status] at hq
  rw [if_pos hterm] at hq
  simp only [Except.ok.injEq, Prod.mk.injEq] at hq
  rcases hq with ⟨h1, h2⟩
  subst h1
  subst h2
  exact ⟨rfl, hok, reconcile_nil_fst b.hospitals, reconcile_snd [] b.hospitals⟩

/-- Witness for the amended C5 at the concrete live batch. -/
theorem claim_C5_witness :
    get_hospitals_by_batch none = [] ∧
    (get_batch_status "batch-5" (some exBatchLive) none).toOption.isSome = true ∧
    exLivePair.2.hospitals = exBatchLive.hospitals.map emptyFetchReconcile ∧
    exLivePair.1.deleted_hospitals
      = (exBatchLive.hospitals.filter (freshlyDeleted [])).length :=
  claim_C5_amended "batch-5" exBatchLive exLivePair.1 exLivePair.2 rfl rfl

/-- C6: the bulk-activation capability is invoked iff the success count over
the gathered records is positive; the batch is flagged activated exactly when
it was invoked and reported at least one activation, in which case every
CREATED record is upgraded to CREATED_AND_ACTIVATED; otherwise the records are
stored unchanged and the flag stays false. -/
theorem claim_C6 (b : BatchData) (rows : List ParsedRow)
    (outcomes : List CreateOutcome) (act : Option ActivateResponse) :
    ((_process_batch_async b rows outcomes act).2 = true ↔
        0 < successCount (_create_hospitals_parallel rows outcomes)) ∧
    (_process_batch_async b rows outcomes act).1.batch_activated =
      (decide (0 < successCount (_create_hospitals_parallel rows outcomes))
        && activationSucceeded act) ∧
    (_process_batch_async b rows outcomes act).1.hospitals =
      (if (decide (0 < successCount (_create_hospitals_parallel rows outcomes))
            && activationSucceeded act)
        then (_create_hospitals_parallel rows outcomes).map activationUpgrade
        else _create_hospitals_parallel rows outcomes) := by
  obtain ⟨hp, hf, ht, hst, hba, hh, hinv⟩ := process_batch_fields b rows outcomes act
  have hall := gatherFrom_status (rows.zip outcomes) 1
  have hsc : successCount (_create_hospitals_parallel rows outcomes)
      = ((_create_hospitals_parallel rows outcomes).filter
          fun h => h.status == HospitalStatus.CREATED).length :=
    successCount_eq_created _ hall
  rw [hsc]
  refine ⟨?_, hba, hh⟩
  rw [hinv]
  simp

/-- C7: the executor produces exactly one record per input item, and the
stored sequence preserves input row order: its row numbers are 1, 2, ... in
position order, independently of completion order (the gather assembles
results by task position). -/
theorem claim_C7 (rows : List ParsedRow) (outcomes : List CreateOutcome)
    (hlen : outcomes.length = rows.length) :
    (_create_hospitals_parallel rows outcomes).length = rows.length ∧
    (_create_hospitals_parallel rows outcomes).map (fun r => r.row)
      = List.range' 1 rows.length := by
  have hz : (rows.zip outcomes).length = rows.length := by
    rw [List.length_zip, hlen, Nat.min_self]
  constructor
  · unfold _create_hospitals_parallel
    rw [gatherFrom_length, hz]
  · unfold _create_hospitals_parallel
    rw [gatherFrom_rows, hz]

/-- Witness for C7 on a one-row input. -/
theorem claim_C7_witness :
    (_create_hospitals_parallel [exRow] [CreateOutcome.success exHospital]).length
      = [exRow].length ∧
    (_create_hospitals_parallel [exRow] [CreateOutcome.success exHospital]).map
        (fun r => r.row) = List.range' 1 [exRow].length :=
  claim_C7 [exRow] [CreateOutcome.success exHospital] rfl

/-- C8: for every known batch the progress query returns (it never faults),
and the reported percentage is 100 * (processed_success + processed_failure) /
total rounded to two decimals, with 0 instead of a division error when the
total is 0. -/
theorem claim_C8 (batch_id : String) (b : BatchData) :
    (get_batch_progress batch_id (some b)).toOption.map
        (fun r => r.progress_percentage)
      = some (if 0 < b.total_hospitals
          then round2 (100 * ((b.processed_hospitals : ℚ)
              + (b.failed_hospitals : ℚ)) / (b.total_hospitals : ℚ))
          else 0) := by
  unfold get_batch_progress
  simp only [Except.toOption, Option.map]
  by_cases ht : 0 < b.total_hospitals
  · rw [if_pos ht, if_pos ht]
    congr 1
    push_cast
    ring_nf
  · rw [if_neg ht, if_neg ht]
    simp [round2]

/-- C9: in every state an executor invocation can reach, at most
MAX_CONCURRENT_REQUESTS per-item tasks hold a semaphore permit, so at most 20
remote create calls are in flight; a waiting task is admitted only when a
permit is free. -/
theorem claim_C9 (n : Nat) (s : ExecState) (h : ExecReachable n s) :
    s.running ≤ MAX_CONCURRENT_REQUESTS := by
  induction h with
  | refl => exact Nat.zero_le _
  | tail _ step ih =>
      cases step with
      | acquire w r f hw hr => exact hr
      | release w r f hr =>
          simp only [ExecState.running] at ih ⊢
          omega

/-- Witness for C9: the state reached after admitting one of five tasks. -/
theorem claim_C9_witness :
    (ExecState.mk 4 1 0).running ≤ MAX_CONCURRENT_REQUESTS :=
  claim_C9 5 (ExecState.mk 4 1 0)
    (Relation.ReflTransGen.single (ExecStep.acquire 5 0 0 (by decide) (by decide)))

/-- validate_and_parse only succeeds with at least one parsed row: an input
with zero valid data rows yields the empty_file error (or its row errors). -/
theorem validate_ok_ne_nil (rows : List RawRow) (parsed : List ParsedRow)
    (hv : validate_and_parse rows = .ok parsed) : parsed ≠ [] := by
  unfold validate_and_parse at hv
  dsimp only [] at hv
  by_cases he : ((parseRows rows 1).2.isEmpty && (parseRows rows 1).1.isEmpty) = true
  · rw [if_pos he] at hv
    simp [List.isEmpty_iff] at hv
  · rw [if_neg he] at hv
    by_cases h1 : (parseRows rows 1).1.isEmpty = true
    · rw [if_pos h1] at hv
      simp only [Except.ok.injEq] at hv
      subst hv
      intro hnil
      apply he
      rw [List.isEmpty_iff.mpr hnil, h1]
      rfl
    · rw [if_neg h1] at hv
      exact absurd hv (by simp)

/-- C10: a batch record created through the CSV upload path always has
total >= 1 and starts PENDING: validation only hands the orchestrator a
non-empty parsed row list (zero valid rows raise a CSV validation error before
any batch record is created). -/
theorem claim_C10 (batch_id : String) (rows : List RawRow)
    (parsed : List ParsedRow) (b : BatchData) (resp : BatchUploadResponse)
    (hv : validate_and_parse rows = .ok parsed)
    (hu : initiate_csv_upload batch_id rows = .ok (b, resp)) :
    parsed ≠ [] ∧ 1 ≤ b.total_hospitals ∧
      b.processing_status = BatchProcessingStatus.PENDING := by
  have hne := validate_ok_ne_nil rows parsed hv
  unfold initiate_csv_upload at hu
  rw [hv] at hu
  simp only [Except.ok.injEq, Prod.mk.injEq] at hu
  rcases hu with ⟨hb, _⟩
  subst hb
  exact ⟨hne, List.length_pos.mpr hne, rfl⟩

/-- Witness for C10 on a one-row CSV. -/
theorem claim_C10_witness :
    [exRow] ≠ ([] : List ParsedRow) ∧ 1 ≤ exBatch0.total_hospitals ∧
      exBatch0.processing_status = BatchProcessingStatus.PENDING :=
  claim_C10 "batch-0" [exRawRow] [exRow] exBatch0 exUploadResp rfl rfl

end HospitalBatch
